import Mathlib

def optRatTruthy : Option ℚ → Bool
  | none => false
  | some x => x != 0

def optStrTruthy : Option String → Bool
  | none => false
  | some s => !s.isEmpty

def pyOrStr : Option String → String → String
  | none, d => d
  | some s, d => if s.isEmpty then d else s

def strLower (s : String) : String := String.mk (s.data.map Char.toLower)

def strUpper (s : String) : String := String.mk (s.data.map Char.toUpper)

def listStartsWith : List Char → List Char → Bool
  | _, [] => true
  | [], _ :: _ => false
  | a :: as, b :: bs => a == b && listStartsWith as bs

def listContainsSeq : List Char → List Char → Bool
  | [], pat => pat.isEmpty
  | a :: as, pat => listStartsWith (a :: as) pat || listContainsSeq as pat

def strContains (hay pat : String) : Bool :=
  listContainsSeq hay.toList pat.toList

def tonneKmFactor : String → Option ℚ
  | "truck_average" => some 0.127
  | "truck_urban_delivery" => some 0.307
  | "truck_longhaul" => some 0.062
  | "rail" => some 0.022
  | "air_shorthaul" => some 0.82
  | "air_longhaul" => some 0.69
  | "ocean_container" => some 0.010
  | "ocean_bulk" => some 0.004
  | "last_mile" => some 0.200
  | _ => none

def DEFAULT_DISTANCES : String → ℚ
  | "domestic_ground" => 1200
  | "domestic_air" => 1500
  | "international" => 5000
  | "last_mile" => 10
  | _ => 0

structure Address where
  street : Option String
  city : Option String
  state : Option String
  postal_code : Option String
  country : Option String
  latitude : Option ℚ
  longitude : Option ℚ
deriving DecidableEq

def Address.empty : Address :=
  { street := none, city := none, state := none, postal_code := none,
    country := none, latitude := none, longitude := none }

def Address.to_string (a : Address) : String :=
  String.intercalate ", "
    ((([a.street, a.city, a.state, a.postal_code, a.country].filterMap id).filter
      (fun s => !s.isEmpty)))

structure PackageInfo where
  tracking_number : String
  weight_kg : ℚ
  dimensions : Option (ℚ × ℚ × ℚ)
  origin : Option Address
  destination : Option Address
  service_code : Option String
  service_description : Option String
  carrier : String
  pickup_date : Option String
deriving DecidableEq

def PackageInfo.get_dimensional_weight_kg (p : PackageInfo) (carrier : String) : Option ℚ :=
  match p.dimensions with
  | none => none
  | some (length, width, height) =>
    let volume_cm3 := length * width * height
    some (volume_cm3 / 5000)

structure EmissionSegment where
  segment : String
  mode : String
  distance_km : ℚ
  weight_kg : ℚ
  emission_factor : ℚ
  emissions_kg : ℚ
deriving DecidableEq

structure EmissionResult where
  total_emissions_kg : ℚ
  weight_used_kg : ℚ
  is_dimensional : Bool
  distance_km : ℚ
  transport_mode : String
  emission_factor : ℚ
  breakdown : List EmissionSegment
  package_info : PackageInfo
deriving DecidableEq

inductive GeoOutcome where
  | found (lat lon : ℚ)
  | notFound
  | error
deriving DecidableEq

structure GeoState where
  cache : List (String × (ℚ × ℚ))
deriving DecidableEq

def geocodeAttempt (g : String → GeoOutcome) (a : Address) (addr_string : String) :
    Except Unit (Option (ℚ × ℚ)) :=
  match g addr_string with
  | GeoOutcome.error => Except.error ()
  | GeoOutcome.found lat lon => Except.ok (some (lat, lon))
  | GeoOutcome.notFound =>
    let step3 : Except Unit (Option (ℚ × ℚ)) :=
      if optStrTruthy a.postal_code && optStrTruthy a.country then
        match g ((a.postal_code.getD "") ++ ", " ++ (a.country.getD "")) with
        | GeoOutcome.error => Except.error ()
        | GeoOutcome.found lat lon => Except.ok (some (lat, lon))
        | GeoOutcome.notFound => Except.ok none
      else Except.ok none
    if optStrTruthy a.city && optStrTruthy a.country then
      match g ((a.city.getD "") ++ ", " ++ (a.country.getD "")) with
      | GeoOutcome.error => Except.error ()
      | GeoOutcome.found lat lon => Except.ok (some (lat, lon))
      | GeoOutcome.notFound => step3
    else step3

def geocodeLoop (g : String → GeoOutcome) (a : Address) (addr_string : String) :
    Nat → Option (ℚ × ℚ)
  | 0 => none
  | Nat.succ n =>
    match geocodeAttempt g a addr_string with
    | Except.ok r => r
    | Except.error _ => geocodeLoop g a addr_string n

def geocode_address (g : String → GeoOutcome) (st : GeoState) (a : Address)
    (max_retries : Nat) : Option (ℚ × ℚ) × GeoState :=
  if optRatTruthy a.latitude && optRatTruthy a.longitude then
    (some (a.latitude.getD 0, a.longitude.getD 0), st)
  else
    let addr_string := a.to_string
    match st.cache.lookup addr_string with
    | some coords => (some coords, st)
    | none =>
      match geocodeLoop g a addr_string max_retries with
      | some coords => (some coords, { cache := (addr_string, coords) :: st.cache })
      | none => (none, st)

def coordsTruthyLat : Option (ℚ × ℚ) → Bool
  | none => false
  | some (lat, _) => lat != 0

def calculate_distance (g : String → GeoOutcome) (geo : ℚ × ℚ → ℚ × ℚ → ℚ)
    (st : GeoState) (origin destination : Address) (service_type : String) :
    ℚ × GeoState :=
  let or_ := geocode_address g st origin 3
  let origin_coords := or_.1
  let de_ := geocode_address g or_.2 destination 3
  let dest_coords := de_.1
  if coordsTruthyLat origin_coords && coordsTruthyLat dest_coords then
    (geo (origin_coords.getD (0, 0)) (dest_coords.getD (0, 0)), de_.2)
  else
    if optStrTruthy origin.country && optStrTruthy destination.country
        && origin.country != destination.country then
      (DEFAULT_DISTANCES "international", de_.2)
    else if strContains (strLower service_type) "air" then
      (DEFAULT_DISTANCES "domestic_air", de_.2)
    else
      (DEFAULT_DISTANCES "domestic_ground", de_.2)

inductive CarrierAdapter where
  | ups
  | usps
  | fedex
  | dhl
deriving DecidableEq

def UPS_SERVICE_TO_MODE : List (String × String) :=
  [("01", "air_shorthaul"),
   ("02", "air_shorthaul"),
   ("03", "truck_average"),
   ("07", "air_longhaul"),
   ("08", "air_longhaul"),
   ("11", "truck_average"),
   ("12", "truck_average"),
   ("13", "air_shorthaul"),
   ("14", "air_shorthaul"),
   ("54", "air_longhaul"),
   ("554", "air_longhaul"),
   ("59", "air_shorthaul"),
   ("65", "ocean_container"),
   ("93", "truck_average"),
   ("default", "truck_average")]

def USPS_SERVICE_TO_MODE : List (String × String) :=
  [("PRIORITY", "air_shorthaul"),
   ("PRIORITY_EXPRESS", "air_shorthaul"),
   ("FIRST_CLASS", "truck_average"),
   ("PARCEL_SELECT", "truck_average"),
   ("MEDIA_MAIL", "truck_average"),
   ("PRIORITY_MAIL_EXPRESS_INTERNATIONAL", "air_longhaul"),
   ("PRIORITY_MAIL_INTERNATIONAL", "air_longhaul"),
   ("default", "truck_average")]

def FEDEX_SERVICE_TO_MODE : List (String × String) :=
  [("FEDEX_GROUND", "truck_average"),
   ("GROUND_HOME_DELIVERY", "truck_average"),
   ("FEDEX_EXPRESS_SAVER", "air_shorthaul"),
   ("FEDEX_2_DAY", "air_shorthaul"),
   ("FEDEX_2_DAY_AM", "air_shorthaul"),
   ("STANDARD_OVERNIGHT", "air_shorthaul"),
   ("PRIORITY_OVERNIGHT", "air_shorthaul"),
   ("FIRST_OVERNIGHT", "air_shorthaul"),
   ("INTERNATIONAL_ECONOMY", "air_longhaul"),
   ("INTERNATIONAL_PRIORITY", "air_longhaul"),
   ("INTERNATIONAL_FIRST", "air_longhaul"),
   ("SMART_POST", "truck_average"),
   ("default", "truck_average")]

def DHL_SERVICE_TO_MODE : List (String × String) :=
  [("EXPRESS_WORLDWIDE", "air_longhaul"),
   ("EXPRESS_12:00", "air_longhaul"),
   ("EXPRESS_9:00", "air_longhaul"),
   ("EXPRESS_EASY", "air_longhaul"),
   ("ECONOMY_SELECT", "air_longhaul"),
   ("GROUND", "truck_average"),
   ("default", "air_longhaul")]

def dictGet (m : List (String × String)) (k fallback : String) : String :=
  match m.lookup k with
  | some v => v
  | none => fallback

def CarrierAdapter.get_transport_mode : CarrierAdapter → String → String
  | CarrierAdapter.ups, code =>
    dictGet UPS_SERVICE_TO_MODE code (dictGet UPS_SERVICE_TO_MODE "default" "")
  | CarrierAdapter.usps, code =>
    dictGet USPS_SERVICE_TO_MODE (strUpper code) (dictGet USPS_SERVICE_TO_MODE "default" "")
  | CarrierAdapter.fedex, code =>
    dictGet FEDEX_SERVICE_TO_MODE (strUpper code) (dictGet FEDEX_SERVICE_TO_MODE "default" "")
  | CarrierAdapter.dhl, code =>
    dictGet DHL_SERVICE_TO_MODE (strUpper code) (dictGet DHL_SERVICE_TO_MODE "default" "")

inductive CalcError where
  | valueError
  | keyError
deriving DecidableEq

def CarrierFactory.create_adapter (carrier : String) : Except CalcError CarrierAdapter :=
  let carrier_lower := strLower carrier
  if carrier_lower = "ups" then Except.ok CarrierAdapter.ups
  else if carrier_lower = "usps" then Except.ok CarrierAdapter.usps
  else if carrier_lower = "fedex" then Except.ok CarrierAdapter.fedex
  else if carrier_lower = "dhl" then Except.ok CarrierAdapter.dhl
  else Except.error CalcError.valueError

def calculate_emissions (weight_kg distance_km : ℚ) (transport_mode : String) : Option ℚ :=
  match tonneKmFactor transport_mode with
  | none => none
  | some emission_factor =>
    let weight_tonnes := weight_kg / 1000
    let tonne_km := weight_tonnes * distance_km
    some (tonne_km * emission_factor)

def resolveWeight (package_info : PackageInfo) : ℚ × Bool :=
  match package_info.dimensions with
  | none => (package_info.weight_kg, false)
  | some _ =>
    match package_info.get_dimensional_weight_kg package_info.carrier with
    | none => (package_info.weight_kg, false)
    | some dim_weight =>
      if dim_weight != 0 && dim_weight > package_info.weight_kg then
        (dim_weight, true)
      else
        (package_info.weight_kg, false)

def calculate_from_package_info (g : String → GeoOutcome) (geo : ℚ × ℚ → ℚ × ℚ → ℚ)
    (st : GeoState) (package_info : PackageInfo) :
    Except CalcError (Option EmissionResult) :=
  let wd := resolveWeight package_info
  let weight_kg := wd.1
  let is_dimensional := wd.2
  match package_info.origin, package_info.destination with
  | some origin, some destination =>
    let distance_km :=
      (calculate_distance g geo st origin destination
        (pyOrStr package_info.service_description "ground")).1
    match CarrierFactory.create_adapter (strLower package_info.carrier) with
    | Except.error e => Except.error e
    | Except.ok adapter =>
      let transport_mode := adapter.get_transport_mode (pyOrStr package_info.service_code "")
      match tonneKmFactor transport_mode with
      | none => Except.error CalcError.keyError
      | some emission_factor =>
        match calculate_emissions weight_kg distance_km transport_mode with
        | none => Except.error CalcError.keyError
        | some main_emissions =>
          let mainSeg : EmissionSegment :=
            { segment := "Main Transit", mode := transport_mode,
              distance_km := distance_km, weight_kg := weight_kg,
              emission_factor := emission_factor, emissions_kg := main_emissions }
          if transport_mode ≠ "last_mile" then
            let last_mile_distance := DEFAULT_DISTANCES "last_mile"
            match calculate_emissions weight_kg last_mile_distance "last_mile" with
            | none => Except.error CalcError.keyError
            | some last_mile_emissions =>
              let lastSeg : EmissionSegment :=
                { segment := "Last Mile Delivery", mode := "last_mile",
                  distance_km := last_mile_distance, weight_kg := weight_kg,
                  emission_factor := (tonneKmFactor "last_mile").getD 0,
                  emissions_kg := last_mile_emissions }
              Except.ok (some
                { total_emissions_kg := main_emissions + last_mile_emissions,
                  weight_used_kg := weight_kg,
                  is_dimensional := is_dimensional,
                  distance_km := distance_km,
                  transport_mode := transport_mode,
                  emission_factor := emission_factor,
                  breakdown := [mainSeg, lastSeg],
                  package_info := package_info })
          else
            Except.ok (some
              { total_emissions_kg := main_emissions,
                weight_used_kg := weight_kg,
                is_dimensional := is_dimensional,
                distance_km := distance_km,
                transport_mode := transport_mode,
                emission_factor := emission_factor,
                breakdown := [mainSeg],
                package_info := package_info })
  | _, _ => Except.ok none

def reverse_weight_kg (total_emissions distance_km emission_factor : ℚ) : ℚ :=
  total_emissions * 1000 / (distance_km * emission_factor)

def gNF : String → GeoOutcome := fun _ => GeoOutcome.notFound

def geoFix : ℚ × ℚ → ℚ × ℚ → ℚ := fun _ _ => 500

def stEmpty : GeoState := { cache := [] }

def addrO : Address :=
  { street := none, city := some "Worcester", state := none, postal_code := none,
    country := some "US", latitude := none, longitude := none }

def addrD : Address :=
  { street := none, city := some "Boston", state := none, postal_code := none,
    country := some "US", latitude := none, longitude := none }

def pkgGround : PackageInfo :=
  { tracking_number := "T1", weight_kg := 10, dimensions := none,
    origin := some addrO, destination := some addrD, service_code := none,
    service_description := none, carrier := "ups", pickup_date := none }

def resGround : EmissionResult :=
  { total_emissions_kg := 10 / 1000 * 1200 * 0.127 + 10 / 1000 * 10 * 0.200,
    weight_used_kg := 10,
    is_dimensional := false,
    distance_km := 1200,
    transport_mode := "truck_average",
    emission_factor := 0.127,
    breakdown := [
      { segment := "Main Transit", mode := "truck_average", distance_km := 1200,
        weight_kg := 10, emission_factor := 0.127,
        emissions_kg := 10 / 1000 * 1200 * 0.127 },
      { segment := "Last Mile Delivery", mode := "last_mile", distance_km := 10,
        weight_kg := 10, emission_factor := 0.200,
        emissions_kg := 10 / 1000 * 10 * 0.200 }],
    package_info := pkgGround }

def pkgDim : PackageInfo :=
  { tracking_number := "T3", weight_kg := 2, dimensions := some (50, 40, 30),
    origin := some addrO, destination := some addrD, service_code := none,
    service_description := none, carrier := "ups", pickup_date := none }

def pkgNoAddr : PackageInfo :=
  { tracking_number := "T4", weight_kg := 3, dimensions := none,
    origin := none, destination := some addrD, service_code := none,
    service_description := none, carrier := "ups", pickup_date := none }

def addrUS : Address :=
  { street := none, city := none, state := none, postal_code := none,
    country := some "US", latitude := none, longitude := none }

def addrDE : Address :=
  { street := none, city := none, state := none, postal_code := none,
    country := some "DE", latitude := none, longitude := none }

def pkgUnknownCarrier : PackageInfo :=
  { tracking_number := "T5", weight_kg := 4, dimensions := none,
    origin := some addrO, destination := some addrD, service_code := none,
    service_description := none, carrier := "pigeon", pickup_date := none }

def pkgNegWeight : PackageInfo :=
  { tracking_number := "T6", weight_kg := -5, dimensions := none,
    origin := some addrO, destination := some addrD, service_code := none,
    service_description := none, carrier := "ups", pickup_date := none }

def resNegWeight : EmissionResult :=
  { total_emissions_kg := -5 / 1000 * 1200 * 0.127 + -5 / 1000 * 10 * 0.200,
    weight_used_kg := -5,
    is_dimensional := false,
    distance_km := 1200,
    transport_mode := "truck_average",
    emission_factor := 0.127,
    breakdown := [
      { segment := "Main Transit", mode := "truck_average", distance_km := 1200,
        weight_kg := -5, emission_factor := 0.127,
        emissions_kg := -5 / 1000 * 1200 * 0.127 },
      { segment := "Last Mile Delivery", mode := "last_mile", distance_km := 10,
        weight_kg := -5, emission_factor := 0.200,
        emissions_kg := -5 / 1000 * 10 * 0.200 }],
    package_info := pkgNegWeight }

def addrZeroLat : Address :=
  { street := none, city := some "Quito", state := none, postal_code := none,
    country := some "EC", latitude := some 0, longitude := some (-78) }

def addrCoords : Address :=
  { street := none, city := some "Worcester", state := none, postal_code := none,
    country := some "US", latitude := some 42, longitude := some (-71) }

def gFound : String → GeoOutcome := fun _ => GeoOutcome.found 9 9

/-! ### Helper lemmas and claim theorems -/

theorem dictGet_forall (P : String → Prop) (m : List (String × String)) (k fallback : String)
    (hfb : P fallback) (hm : ∀ kv ∈ m, P kv.2) : P (dictGet m k fallback) := by
  induction m with
  | nil => exact hfb
  | cons kv t ih =>
    simp only [dictGet, List.lookup]
    by_cases hk : k == kv.1
    · simp only [hk, if_true]
      exact hm kv (List.mem_cons_self kv t)
    · simp only [hk, if_false]
      exact ih (fun e he => hm e (List.mem_cons_of_mem kv he))

theorem mode_factor_isSome (a : CarrierAdapter) (code : String) :
    (tonneKmFactor (a.get_transport_mode code)).isSome = true := by
  cases a <;>
    simp only [CarrierAdapter.get_transport_mode] <;>
    (refine dictGet_forall (fun v => (tonneKmFactor v).isSome = true) _ _ _ (by decide) ?_
     intro kv hkv
     fin_cases hkv <;> decide)

theorem mode_ne_last_mile (a : CarrierAdapter) (code : String) :
    a.get_transport_mode code ≠ "last_mile" := by
  cases a <;>
    simp only [CarrierAdapter.get_transport_mode] <;>
    (refine dictGet_forall (fun v => v ≠ "last_mile") _ _ _ (by decide) ?_
     intro kv hkv
     fin_cases hkv <;> decide)

theorem tonneKmFactor_last_mile : tonneKmFactor "last_mile" = some 0.200 := rfl

theorem DEFAULT_DISTANCES_last_mile : DEFAULT_DISTANCES "last_mile" = 10 := rfl

theorem calc_ok_shape (g : String → GeoOutcome) (geo : ℚ × ℚ → ℚ × ℚ → ℚ)
    (st : GeoState) (p : PackageInfo) (r : EmissionResult)
    (h : calculate_from_package_info g geo st p = Except.ok (some r)) :
    ∃ o d adapter f,
      p.origin = some o ∧ p.destination = some d ∧
      CarrierFactory.create_adapter (strLower p.carrier) = Except.ok adapter ∧
      r.transport_mode = adapter.get_transport_mode (pyOrStr p.service_code "") ∧
      tonneKmFactor r.transport_mode = some f ∧
      r.emission_factor = f ∧
      r.weight_used_kg = (resolveWeight p).1 ∧
      r.is_dimensional = (resolveWeight p).2 ∧
      r.distance_km =
        (calculate_distance g geo st o d (pyOrStr p.service_description "ground")).1 ∧
      r.package_info = p ∧
      ((r.transport_mode ≠ "last_mile" ∧
          r.breakdown = [
            { segment := "Main Transit", mode := r.transport_mode,
              distance_km := r.distance_km, weight_kg := r.weight_used_kg,
              emission_factor := f,
              emissions_kg := r.weight_used_kg / 1000 * r.distance_km * f },
            { segment := "Last Mile Delivery", mode := "last_mile",
              distance_km := 10, weight_kg := r.weight_used_kg,
              emission_factor := 0.200,
              emissions_kg := r.weight_used_kg / 1000 * 10 * 0.200 }] ∧
          r.total_emissions_kg =
            r.weight_used_kg / 1000 * r.distance_km * f +
              r.weight_used_kg / 1000 * 10 * 0.200)
        ∨ (r.transport_mode = "last_mile" ∧
          r.breakdown = [
            { segment := "Main Transit", mode := r.transport_mode,
              distance_km := r.distance_km, weight_kg := r.weight_used_kg,
              emission_factor := f,
              emissions_kg := r.weight_used_kg / 1000 * r.distance_km * f }] ∧
          r.total_emissions_kg = r.weight_used_kg / 1000 * r.distance_km * f)) := by
  cases ho : p.origin with
  | none => simp [calculate_from_package_info, ho] at h
  | some o =>
  cases hd : p.destination with
  | none => simp [calculate_from_package_info, ho, hd] at h
  | some d =>
  cases hca : CarrierFactory.create_adapter (strLower p.carrier) with
  | error e => simp [calculate_from_package_info, ho, hd, hca] at h
  | ok adapter =>
  cases hf : tonneKmFactor (adapter.get_transport_mode (pyOrStr p.service_code "")) with
  | none => simp [calculate_from_package_info, ho, hd, hca, hf] at h
  | some f =>
  by_cases hm : adapter.get_transport_mode (pyOrStr p.service_code "") = "last_mile"
  · rw [hm, tonneKmFactor_last_mile] at hf
    injection hf with hf
    subst hf
    simp only [calculate_from_package_info, ho, hd, hca, hm, calculate_emissions,
      tonneKmFactor_last_mile, ne_eq, not_true_eq_false, if_false,
      Except.ok.injEq, Option.some.injEq] at h
    subst h
    exact ⟨o, d, adapter, 0.200, rfl, rfl, rfl, hm.symm, tonneKmFactor_last_mile,
      rfl, rfl, rfl, rfl, rfl, Or.inr ⟨rfl, rfl, rfl⟩⟩
  · simp only [calculate_from_package_info, ho, hd, hca, hf, calculate_emissions,
      tonneKmFactor_last_mile, DEFAULT_DISTANCES_last_mile, Option.getD_some,
      hm, ne_eq, not_false_eq_true, if_true, Except.ok.injEq, Option.some.injEq] at h
    subst h
    exact ⟨o, d, adapter, f, rfl, rfl, rfl, rfl, hf, rfl, rfl, rfl, rfl, rfl,
      Or.inl ⟨hm, rfl, rfl⟩⟩

theorem calcGround : calculate_from_package_info gNF geoFix stEmpty pkgGround =
    Except.ok (some resGround) := rfl

theorem C1_breakdown_structure (g : String → GeoOutcome) (geo : ℚ × ℚ → ℚ × ℚ → ℚ)
    (st : GeoState) (p : PackageInfo) (r : EmissionResult)
    (h : calculate_from_package_info g geo st p = Except.ok (some r)) :
    (∃ s0 rest, r.breakdown = s0 :: rest ∧ s0.segment = "Main Transit" ∧
        ∀ s ∈ rest, s.segment ≠ "Main Transit")
    ∧ ((∃ s ∈ r.breakdown, s.segment = "Last Mile Delivery" ∧ s.mode = "last_mile" ∧
          s.distance_km = 10 ∧ s.emission_factor = 0.200 ∧ s.weight_kg = r.weight_used_kg)
        ↔ r.transport_mode ≠ "last_mile")
    ∧ (∀ s ∈ r.breakdown,
        s.emissions_kg = s.weight_kg / 1000 * s.distance_km * s.emission_factor)
    ∧ r.total_emissions_kg = (r.breakdown.map EmissionSegment.emissions_kg).sum := by
  obtain ⟨o, d, adapter, f, ho, hd, hca, hmode, hfac, hef, hw, hid, hdist, hpk, hcase⟩ :=
    calc_ok_shape g geo st p r h
  rcases hcase with ⟨hm, hbreak, htot⟩ | ⟨hm, hbreak, htot⟩
  · refine ⟨⟨_, _, hbreak, rfl, ?_⟩, ?_, ?_, ?_⟩
    · intro s hs
      simp only [List.mem_singleton] at hs
      subst hs
      show ("Last Mile Delivery" : String) ≠ "Main Transit"
      decide
    · constructor
      · intro _
        exact hm
      · intro _
        refine ⟨_, by rw [hbreak]; exact List.mem_cons_of_mem _ (List.mem_singleton_self _),
          rfl, rfl, rfl, rfl, rfl⟩
    · intro s hs
      rw [hbreak] at hs
      simp only [List.mem_cons, List.not_mem_nil, or_false] at hs
      rcases hs with rfl | rfl
      · rfl
      · rfl
    · rw [hbreak, htot]
      simp [List.sum_cons]
  · refine ⟨⟨_, _, hbreak, rfl, fun s hs => absurd hs (List.not_mem_nil s)⟩, ?_, ?_, ?_⟩
    · constructor
      · rintro ⟨s, hs, hlab, -⟩
        rw [hbreak] at hs
        simp only [List.mem_singleton] at hs
        subst hs
        refine absurd hlab ?_
        show ("Main Transit" : String) ≠ "Last Mile Delivery"
        decide
      · intro hne
        exact absurd hm hne
    · intro s hs
      rw [hbreak] at hs
      simp only [List.mem_singleton] at hs
      subst hs
      rfl
    · rw [hbreak, htot]
      simp [List.sum_cons]

theorem C1_breakdown_structure_witness :
    calculate_from_package_info gNF geoFix stEmpty pkgGround = Except.ok (some resGround)
    ∧ ((∃ s0 rest, resGround.breakdown = s0 :: rest ∧ s0.segment = "Main Transit" ∧
          ∀ s ∈ rest, s.segment ≠ "Main Transit")
      ∧ ((∃ s ∈ resGround.breakdown, s.segment = "Last Mile Delivery" ∧ s.mode = "last_mile" ∧
            s.distance_km = 10 ∧ s.emission_factor = 0.200 ∧
            s.weight_kg = resGround.weight_used_kg)
          ↔ resGround.transport_mode ≠ "last_mile")
      ∧ (∀ s ∈ resGround.breakdown,
          s.emissions_kg = s.weight_kg / 1000 * s.distance_km * s.emission_factor)
      ∧ resGround.total_emissions_kg =
          (resGround.breakdown.map EmissionSegment.emissions_kg).sum) :=
  ⟨calcGround, C1_breakdown_structure gNF geoFix stEmpty pkgGround resGround calcGround⟩

theorem DEFAULT_DISTANCES_international : DEFAULT_DISTANCES "international" = 5000 := rfl

theorem DEFAULT_DISTANCES_domestic_air : DEFAULT_DISTANCES "domestic_air" = 1500 := rfl

theorem DEFAULT_DISTANCES_domestic_ground : DEFAULT_DISTANCES "domestic_ground" = 1200 := rfl

theorem C2_weight_resolution (p : PackageInfo) (hw : 0 ≤ p.weight_kg) :
    (p.dimensions = none → resolveWeight p = (p.weight_kg, false))
    ∧ (∀ L W H, p.dimensions = some (L, W, H) →
        (∀ c : String, p.get_dimensional_weight_kg c = some (L * W * H / 5000))
        ∧ (resolveWeight p).1 = max p.weight_kg (L * W * H / 5000)
        ∧ ((resolveWeight p).2 = true ↔ L * W * H / 5000 > p.weight_kg))
    ∧ (∀ (g : String → GeoOutcome) (geo : ℚ × ℚ → ℚ × ℚ → ℚ) (st : GeoState)
        (r : EmissionResult),
        calculate_from_package_info g geo st p = Except.ok (some r) →
        r.weight_used_kg = (resolveWeight p).1 ∧ r.is_dimensional = (resolveWeight p).2) := by
  refine ⟨?_, ?_, ?_⟩
  · intro hdim
    simp [resolveWeight, hdim]
  · intro L W H hdim
    have hv : ∀ c : String, p.get_dimensional_weight_kg c = some (L * W * H / 5000) := by
      intro c
      simp [PackageInfo.get_dimensional_weight_kg, hdim]
    refine ⟨hv, ?_, ?_⟩
    · by_cases hgt : L * W * H / 5000 > p.weight_kg
      · have hne : L * W * H / 5000 ≠ 0 := ne_of_gt (lt_of_le_of_lt hw hgt)
        rw [max_eq_right (le_of_lt hgt)]
        simp [resolveWeight, hdim, hv, hgt, hne]
      · rw [max_eq_left (le_of_not_lt hgt)]
        simp [resolveWeight, hdim, hv, hgt]
    · by_cases hgt : L * W * H / 5000 > p.weight_kg
      · have hne : L * W * H / 5000 ≠ 0 := ne_of_gt (lt_of_le_of_lt hw hgt)
        simp [resolveWeight, hdim, hv, hgt, hne]
      · simp [resolveWeight, hdim, hv, hgt]
  · intro g geo st r h
    obtain ⟨o, d, adapter, f, ho, hd, hca, hmode, hfac, hef, hwq, hid, hdist, hpk, hcase⟩ :=
      calc_ok_shape g geo st p r h
    exact ⟨hwq, hid⟩

theorem C2_weight_resolution_witness :
    (0 : ℚ) ≤ pkgDim.weight_kg
    ∧ ((pkgDim.dimensions = none → resolveWeight pkgDim = (pkgDim.weight_kg, false))
      ∧ (∀ L W H, pkgDim.dimensions = some (L, W, H) →
          (∀ c : String, pkgDim.get_dimensional_weight_kg c = some (L * W * H / 5000))
          ∧ (resolveWeight pkgDim).1 = max pkgDim.weight_kg (L * W * H / 5000)
          ∧ ((resolveWeight pkgDim).2 = true ↔ L * W * H / 5000 > pkgDim.weight_kg))
      ∧ (∀ (g : String → GeoOutcome) (geo : ℚ × ℚ → ℚ × ℚ → ℚ) (st : GeoState)
          (r : EmissionResult),
          calculate_from_package_info g geo st pkgDim = Except.ok (some r) →
          r.weight_used_kg = (resolveWeight pkgDim).1
          ∧ r.is_dimensional = (resolveWeight pkgDim).2)) :=
  ⟨by norm_num [pkgDim], C2_weight_resolution pkgDim (by norm_num [pkgDim])⟩

theorem C3_missing_address (g : String → GeoOutcome) (geo : ℚ × ℚ → ℚ × ℚ → ℚ)
    (st : GeoState) (p : PackageInfo)
    (h : p.origin = none ∨ p.destination = none) :
    calculate_from_package_info g geo st p = Except.ok none := by
  rcases h with h | h
  · simp [calculate_from_package_info, h]
  · cases ho : p.origin <;> simp [calculate_from_package_info, ho, h]

theorem C3_missing_address_witness :
    (pkgNoAddr.origin = none ∨ pkgNoAddr.destination = none)
    ∧ calculate_from_package_info gNF geoFix stEmpty pkgNoAddr = Except.ok none :=
  ⟨Or.inl rfl, C3_missing_address gNF geoFix stEmpty pkgNoAddr (Or.inl rfl)⟩

theorem C4_default_distance_tiers (g : String → GeoOutcome) (geo : ℚ × ℚ → ℚ × ℚ → ℚ)
    (st : GeoState) (origin destination : Address) (service_type : String)
    (h : (geocode_address g st origin 3).1 = none ∨
         (geocode_address g (geocode_address g st origin 3).2 destination 3).1 = none) :
    (calculate_distance g geo st origin destination service_type).1 =
      if optStrTruthy origin.country && optStrTruthy destination.country
          && origin.country != destination.country then 5000
      else if strContains (strLower service_type) "air" then 1500
      else 1200 := by
  have hfalse : (coordsTruthyLat (geocode_address g st origin 3).1 &&
      coordsTruthyLat
        (geocode_address g (geocode_address g st origin 3).2 destination 3).1) = false := by
    rcases h with h | h <;> rw [h] <;> simp [coordsTruthyLat]
  simp only [calculate_distance]
  rw [hfalse]
  simp only [Bool.false_eq_true, if_false]
  by_cases h2 : (optStrTruthy origin.country && optStrTruthy destination.country
      && origin.country != destination.country) = true
  · simp [h2, DEFAULT_DISTANCES_international]
  · by_cases h3 : strContains (strLower service_type) "air" = true
    · simp [h2, h3, DEFAULT_DISTANCES_domestic_air]
    · simp [h2, h3, DEFAULT_DISTANCES_domestic_ground]

theorem C4_default_distance_tiers_witness :
    ((geocode_address gNF stEmpty addrUS 3).1 = none ∨
      (geocode_address gNF (geocode_address gNF stEmpty addrUS 3).2 addrDE 3).1 = none)
    ∧ (calculate_distance gNF geoFix stEmpty addrUS addrDE "Ground").1 =
        (if optStrTruthy addrUS.country && optStrTruthy addrDE.country
            && addrUS.country != addrDE.country then 5000
          else if strContains (strLower "Ground") "air" then 1500
          else 1200) :=
  ⟨Or.inl rfl,
    C4_default_distance_tiers gNF geoFix stEmpty addrUS addrDE "Ground" (Or.inl rfl)⟩

theorem create_adapter_unknown (c : String)
    (hc : strLower c ∉ (["ups", "usps", "fedex", "dhl"] : List String)) :
    CarrierFactory.create_adapter c = Except.error CalcError.valueError := by
  simp only [List.mem_cons, List.not_mem_nil, or_false, not_or] at hc
  obtain ⟨h1, h2, h3, h4⟩ := hc
  simp only [CarrierFactory.create_adapter]
  rw [if_neg h1, if_neg h2, if_neg h3, if_neg h4]

/-- Counterexample to C5: an unrecognized carrier does not degrade to
truck_average; create_adapter raises ValueError, the calculation fails, and
no EmissionResult is produced. -/
theorem C5_counterexample :
    pkgUnknownCarrier.carrier = "pigeon"
    ∧ calculate_from_package_info gNF geoFix stEmpty pkgUnknownCarrier =
        Except.error CalcError.valueError :=
  ⟨rfl, rfl⟩

theorem C5_amended_unknown_carrier_raises (g : String → GeoOutcome)
    (geo : ℚ × ℚ → ℚ × ℚ → ℚ) (st : GeoState) (p : PackageInfo)
    (hc : strLower (strLower p.carrier) ∉ (["ups", "usps", "fedex", "dhl"] : List String))
    (ho : p.origin.isSome = true) (hd : p.destination.isSome = true) :
    calculate_from_package_info g geo st p = Except.error CalcError.valueError := by
  rcases Option.isSome_iff_exists.mp ho with ⟨o, hoe⟩
  rcases Option.isSome_iff_exists.mp hd with ⟨d, hde⟩
  simp [calculate_from_package_info, hoe, hde, create_adapter_unknown _ hc]

theorem C5_amended_unknown_carrier_raises_witness :
    (strLower (strLower pkgUnknownCarrier.carrier) ∉
        (["ups", "usps", "fedex", "dhl"] : List String)
      ∧ pkgUnknownCarrier.origin.isSome = true
      ∧ pkgUnknownCarrier.destination.isSome = true)
    ∧ calculate_from_package_info gNF geoFix stEmpty pkgUnknownCarrier =
        Except.error CalcError.valueError :=
  ⟨⟨by decide, rfl, rfl⟩,
    C5_amended_unknown_carrier_raises gNF geoFix stEmpty pkgUnknownCarrier
      (by decide) rfl rfl⟩

theorem calc_ok_exists (g : String → GeoOutcome) (geo : ℚ × ℚ → ℚ × ℚ → ℚ)
    (st : GeoState) (p : PackageInfo) (o d : Address) (a : CarrierAdapter)
    (ho : p.origin = some o) (hd : p.destination = some d)
    (ha : CarrierFactory.create_adapter (strLower p.carrier) = Except.ok a) :
    ∃ r, calculate_from_package_info g geo st p = Except.ok (some r)
      ∧ r.weight_used_kg = (resolveWeight p).1
      ∧ r.is_dimensional = (resolveWeight p).2 := by
  rcases Option.isSome_iff_exists.mp
    (mode_factor_isSome a (pyOrStr p.service_code "")) with ⟨f, hf⟩
  simp only [calculate_from_package_info, ho, hd, ha, hf, calculate_emissions,
    tonneKmFactor_last_mile, DEFAULT_DISTANCES_last_mile, Option.getD_some]
  split
  · exact ⟨_, rfl, rfl, rfl⟩
  · exact ⟨_, rfl, rfl, rfl⟩

theorem C6_counterexample :
    pkgNegWeight.weight_kg < 0
    ∧ calculate_from_package_info gNF geoFix stEmpty pkgNegWeight =
        Except.ok (some resNegWeight)
    ∧ resNegWeight.weight_used_kg = -5 :=
  ⟨show (-5 : ℚ) < 0 by norm_num, rfl, rfl⟩

theorem C6_amended_no_validation (g : String → GeoOutcome) (geo : ℚ × ℚ → ℚ × ℚ → ℚ)
    (st : GeoState) (p : PackageInfo)
    (hbad : p.weight_kg < 0 ∨
      ∃ L W H, p.dimensions = some (L, W, H) ∧ (L ≤ 0 ∨ W ≤ 0 ∨ H ≤ 0))
    (ho : p.origin.isSome = true) (hd : p.destination.isSome = true)
    (hc : ∃ a, CarrierFactory.create_adapter (strLower p.carrier) = Except.ok a) :
    ∃ r, calculate_from_package_info g geo st p = Except.ok (some r)
      ∧ r.weight_used_kg = (resolveWeight p).1
      ∧ r.is_dimensional = (resolveWeight p).2 := by
  rcases Option.isSome_iff_exists.mp ho with ⟨o, hoe⟩
  rcases Option.isSome_iff_exists.mp hd with ⟨d, hde⟩
  rcases hc with ⟨a, ha⟩
  exact calc_ok_exists g geo st p o d a hoe hde ha

theorem C6_amended_no_validation_witness :
    ((pkgNegWeight.weight_kg < 0 ∨
        ∃ L W H, pkgNegWeight.dimensions = some (L, W, H) ∧ (L ≤ 0 ∨ W ≤ 0 ∨ H ≤ 0))
      ∧ pkgNegWeight.origin.isSome = true
      ∧ pkgNegWeight.destination.isSome = true
      ∧ ∃ a, CarrierFactory.create_adapter (strLower pkgNegWeight.carrier) = Except.ok a)
    ∧ ∃ r, calculate_from_package_info gNF geoFix stEmpty pkgNegWeight =
          Except.ok (some r)
        ∧ r.weight_used_kg = (resolveWeight pkgNegWeight).1
        ∧ r.is_dimensional = (resolveWeight pkgNegWeight).2 :=
  ⟨⟨Or.inl (show (-5 : ℚ) < 0 by norm_num), rfl, rfl, ⟨CarrierAdapter.ups, rfl⟩⟩,
    C6_amended_no_validation gNF geoFix stEmpty pkgNegWeight
      (Or.inl (show (-5 : ℚ) < 0 by norm_num)) rfl rfl ⟨CarrierAdapter.ups, rfl⟩⟩

theorem C7_counterexample :
    addrZeroLat.latitude = some 0 ∧ addrZeroLat.longitude = some (-78)
    ∧ (geocode_address gNF stEmpty addrZeroLat 3).1 = none
    ∧ (geocode_address gNF { cache := [("Quito, EC", (5, 5))] } addrZeroLat 3).1 =
        some (5, 5) :=
  ⟨rfl, rfl, rfl, rfl⟩

theorem C7_amended_short_circuit (a : Address) (la lo : ℚ)
    (g g2 : String → GeoOutcome) (st st2 : GeoState) (n n2 : Nat)
    (hla : a.latitude = some la) (hlo : a.longitude = some lo)
    (h0a : la ≠ 0) (h0o : lo ≠ 0) :
    geocode_address g st a n = (some (la, lo), st)
    ∧ (geocode_address g st a n).1 = (geocode_address g2 st2 a n2).1 := by
  have ht : (optRatTruthy a.latitude && optRatTruthy a.longitude) = true := by
    simp [optRatTruthy, hla, hlo, h0a, h0o]
  have h1 : geocode_address g st a n = (some (la, lo), st) := by
    simp only [geocode_address]
    rw [if_pos ht]
    simp [hla, hlo]
  have h2 : geocode_address g2 st2 a n2 = (some (la, lo), st2) := by
    simp only [geocode_address]
    rw [if_pos ht]
    simp [hla, hlo]
  rw [h1, h2]
  exact ⟨rfl, rfl⟩

theorem C7_amended_short_circuit_witness :
    (addrCoords.latitude = some 42 ∧ addrCoords.longitude = some (-71)
      ∧ (42 : ℚ) ≠ 0 ∧ (-71 : ℚ) ≠ 0)
    ∧ geocode_address gNF stEmpty addrCoords 3 = (some (42, -71), stEmpty)
    ∧ (geocode_address gNF stEmpty addrCoords 3).1 =
        (geocode_address gFound { cache := [("x", (1, 1))] } addrCoords 7).1 :=
  ⟨⟨rfl, rfl, by norm_num, by norm_num⟩,
    C7_amended_short_circuit addrCoords 42 (-71) gNF gFound stEmpty
      { cache := [("x", (1, 1))] } 3 7 rfl rfl (by norm_num) (by norm_num)⟩

theorem C8_reverse_weight_inconsistent (g : String → GeoOutcome)
    (geo : ℚ × ℚ → ℚ × ℚ → ℚ) (st : GeoState) (p : PackageInfo) (r : EmissionResult)
    (h : calculate_from_package_info g geo st p = Except.ok (some r))
    (hlm : ∃ s ∈ r.breakdown, s.segment = "Last Mile Delivery")
    (hw : 0 < r.weight_used_kg) (hd : 0 < r.distance_km)
    (hf : 0 < r.emission_factor) :
    r.weight_used_kg <
      reverse_weight_kg r.total_emissions_kg r.distance_km r.emission_factor := by
  obtain ⟨o, d, adapter, f, ho, hdst, hca, hmode, hfac, hef, hwq, hid, hdist, hpk, hcase⟩ :=
    calc_ok_shape g geo st p r h
  rcases hcase with ⟨hm, hbreak, htot⟩ | ⟨hm, hbreak, htot⟩
  · rw [reverse_weight_kg, htot, ← hef]
    have hdf : 0 < r.distance_km * r.emission_factor := mul_pos hd hf
    rw [lt_div_iff₀ hdf]
    have h02 : (0.200 : ℚ) = 1/5 := by norm_num
    rw [h02]
    nlinarith [hw, hdf]
  · obtain ⟨s, hs, hlab⟩ := hlm
    rw [hbreak] at hs
    simp only [List.mem_singleton] at hs
    subst hs
    refine absurd hlab ?_
    show ("Main Transit" : String) ≠ "Last Mile Delivery"
    decide

theorem C8_reverse_weight_inconsistent_witness :
    (calculate_from_package_info gNF geoFix stEmpty pkgGround = Except.ok (some resGround)
      ∧ (∃ s ∈ resGround.breakdown, s.segment = "Last Mile Delivery")
      ∧ 0 < resGround.weight_used_kg ∧ 0 < resGround.distance_km
      ∧ 0 < resGround.emission_factor)
    ∧ resGround.weight_used_kg <
        reverse_weight_kg resGround.total_emissions_kg resGround.distance_km
          resGround.emission_factor :=
  ⟨⟨calcGround,
    ⟨{ segment := "Last Mile Delivery", mode := "last_mile", distance_km := 10,
        weight_kg := 10, emission_factor := 0.200,
        emissions_kg := 10 / 1000 * 10 * 0.200 },
      List.mem_cons_of_mem _ (List.mem_singleton_self _), rfl⟩,
    show (0 : ℚ) < 10 by norm_num, show (0 : ℚ) < 1200 by norm_num,
    show (0 : ℚ) < 0.127 by norm_num⟩,
    C8_reverse_weight_inconsistent gNF geoFix stEmpty pkgGround resGround calcGround
      ⟨{ segment := "Last Mile Delivery", mode := "last_mile", distance_km := 10,
          weight_kg := 10, emission_factor := 0.200,
          emissions_kg := 10 / 1000 * 10 * 0.200 },
        List.mem_cons_of_mem _ (List.mem_singleton_self _), rfl⟩
      (show (0 : ℚ) < 10 by norm_num) (show (0 : ℚ) < 1200 by norm_num)
      (show (0 : ℚ) < 0.127 by norm_num)⟩

theorem create_adapter_error_eq (c : String) (e : CalcError)
    (h : CarrierFactory.create_adapter c = Except.error e) :
    e = CalcError.valueError := by
  simp only [CarrierFactory.create_adapter] at h
  split at h
  · simp at h
  · split at h
    · simp at h
    · split at h
      · simp at h
      · split at h
        · simp at h
        · injection h with h
          exact h.symm

theorem C9_factor_lookup_total :
    (∀ (a : CarrierAdapter) (code : String),
        (tonneKmFactor (a.get_transport_mode code)).isSome = true)
    ∧ (∀ (g : String → GeoOutcome) (geo : ℚ × ℚ → ℚ × ℚ → ℚ) (st : GeoState)
        (p : PackageInfo),
        calculate_from_package_info g geo st p ≠ Except.error CalcError.keyError) := by
  refine ⟨mode_factor_isSome, ?_⟩
  intro g geo st p h
  cases ho : p.origin with
  | none => simp [calculate_from_package_info, ho] at h
  | some o =>
  cases hd : p.destination with
  | none => simp [calculate_from_package_info, ho, hd] at h
  | some d =>
  cases hca : CarrierFactory.create_adapter (strLower p.carrier) with
  | error e =>
    have he := create_adapter_error_eq _ _ hca
    subst he
    simp [calculate_from_package_info, ho, hd, hca] at h
  | ok adapter =>
    rcases Option.isSome_iff_exists.mp
      (mode_factor_isSome adapter (pyOrStr p.service_code "")) with ⟨f, hf⟩
    simp only [calculate_from_package_info, ho, hd, hca, hf, calculate_emissions,
      tonneKmFactor_last_mile, DEFAULT_DISTANCES_last_mile, Option.getD_some] at h
    split at h <;> simp at h

theorem C9_factor_lookup_total_witness :
    (tonneKmFactor (CarrierAdapter.ups.get_transport_mode "99")).isSome = true
    ∧ calculate_from_package_info gNF geoFix stEmpty pkgGround ≠
        Except.error CalcError.keyError :=
  ⟨C9_factor_lookup_total.1 CarrierAdapter.ups "99",
    C9_factor_lookup_total.2 gNF geoFix stEmpty pkgGround⟩

theorem C10_two_segments_always :
    (∀ (a : CarrierAdapter) (code : String), a.get_transport_mode code ≠ "last_mile")
    ∧ (∀ (g : String → GeoOutcome) (geo : ℚ × ℚ → ℚ × ℚ → ℚ) (st : GeoState)
        (p : PackageInfo) (r : EmissionResult),
        calculate_from_package_info g geo st p = Except.ok (some r) →
        r.breakdown.length = 2) := by
  refine ⟨mode_ne_last_mile, ?_⟩
  intro g geo st p r h
  obtain ⟨o, d, adapter, f, ho, hd, hca, hmode, hfac, hef, hw, hid, hdist, hpk, hcase⟩ :=
    calc_ok_shape g geo st p r h
  rcases hcase with ⟨hm, hbreak, htot⟩ | ⟨hm, hbreak, htot⟩
  · rw [hbreak]
    rfl
  · exact absurd (hmode.symm.trans hm) (mode_ne_last_mile adapter _)

theorem C10_two_segments_always_witness :
    calculate_from_package_info gNF geoFix stEmpty pkgGround = Except.ok (some resGround)
    ∧ resGround.breakdown.length = 2 :=
  ⟨calcGround,
    C10_two_segments_always.2 gNF geoFix stEmpty pkgGround resGround calcGround⟩
